import Mathlib

/-!
Shallow embedding of the spoiler-mess subsystem (ui/effects/spoiler_mess.cpp):
procedural atlas generation, the versioned checksummed serialization codec,
the disk-cache manager, and the frame accessors, together with proofs of the
specified properties.

Modelling conventions:
* C++ `int`, `int32`, `crl::time` (int64) are modelled as unbounded `Int`;
  the 32-bit wire fields of the serialized header are modelled with explicit
  `% 2^32` two's-complement encoding, little-endian, as `memcpy` of the
  packed `Header` struct produces on the target platforms.
* `float64` descriptor fields and painter opacity are modelled as `Rat`.
* A `QByteArray` is a `List Nat` of byte values.
* A `QImage` is a width/height pair plus a row-major pixel list:
  `ArgbImage` holds packed 32-bit ARGB premultiplied pixels,
  `GrayImage` holds 8-bit intensity pixels.
* The external lossless image codec (Qt PNG, Grayscale8) is modelled by a
  trivially lossless container `pngEncode`/`pngDecode` carrying a channel
  format tag; per the spec any lossless single-channel codec satisfies the
  format contract, and no claim depends on the PNG bitstream itself.
* The external XXH32 digest is modelled by a deterministic 32-bit digest
  `xxh32`; no claim depends on the digest function beyond determinism.
* Qt painting (antialiased rounded-rect sprites, premultiplied source-over
  composition with global opacity) is modelled pixel-exactly in structure:
  sprites are binary-coverage rasterizations and blending is an explicit
  clamped integer source-over; no claim inspects concrete blended values.
-/

/-- Byte sequences, the model of QByteArray. -/
abbrev Bytes := List Nat

/-- Model of a Format_Grayscale8 QImage: 8-bit intensity pixels, row-major. -/
structure GrayImage where
  width : Int
  height : Int
  pixels : List Nat
deriving DecidableEq

/-- Model of a Format_ARGB32_Premultiplied QImage: packed 32-bit pixels, row-major. -/
structure ArgbImage where
  width : Int
  height : Int
  pixels : List Nat
deriving DecidableEq

/-- Model of QRect (integer x, y, width, height). -/
structure QRectI where
  x : Int
  y : Int
  width : Int
  height : Int
deriving DecidableEq

/-- The serialized-blob header (struct Header in the source): version,
payload length, payload hash as uint32; frame count, canvas size and frame
duration as int32. -/
structure Header where
  version : Nat
  dataLength : Nat
  dataHash : Nat
  framesCount : Int
  canvasSize : Int
  frameDuration : Int
deriving DecidableEq

/-- SpoilerMessCached::Validator: the tuple a cached blob must match. -/
structure Validator where
  frameDuration : Int
  framesCount : Int
  canvasSize : Int
deriving DecidableEq

/-- One generated particle (struct Particle in the source). -/
structure Particle where
  start : Int
  spriteIndex : Int
  x : Int
  y : Int
deriving DecidableEq

/-- SpoilerMessDescriptor: the generation parameters. Durations are
crl::time, sizes are float64 (modelled as Rat), counts are int. -/
structure SpoilerMessDescriptor where
  particleFadeInDuration : Int
  particleShownDuration : Int
  particleFadeOutDuration : Int
  particleSizeMin : Rat
  particleSizeMax : Rat
  particleSpritesCount : Int
  particlesCount : Int
  canvasSize : Int
  framesCount : Int
  frameDuration : Int
deriving DecidableEq

/-- The cached asset: the frame atlas plus its three scalar parameters. -/
structure SpoilerMessCached where
  image : ArgbImage
  frameDuration : Int
  framesCount : Int
  canvasSize : Int
deriving DecidableEq

/-- SpoilerMessFrame: the atlas together with one frame sub-rectangle. -/
structure SpoilerMessFrame where
  image : ArgbImage
  source : QRectI
deriving DecidableEq

def kVersion : Nat := 1

def kFramesPerRow : Int := 10

def kMaxCacheSize : Nat := 5 * 1024 * 1024

/-- Little-endian encoding of a 32-bit word into four bytes. -/
def u32encode (n : Nat) : Bytes :=
  [n % 256, n / 256 % 256, n / 65536 % 256, n / 16777216 % 256]

/-- Little-endian 32-bit read of the first four entries of a byte list
(the model of a memcpy field load). -/
def u32From (data : Bytes) : Nat :=
  match data with
  | b0 :: b1 :: b2 :: b3 :: _ => b0 + 256 * b1 + 65536 * b2 + 16777216 * b3
  | _ => 0

/-- Two's-complement reading of a 32-bit word as an int32 value. -/
def toInt32 (n : Nat) : Int :=
  if n < 2147483648 then (n : Int) else (n : Int) - 4294967296

/-- Little-endian int32 read of the first four entries of a byte list. -/
def i32From (data : Bytes) : Int :=
  toInt32 (u32From data % 4294967296)

/-- Little-endian two's-complement encoding of an int32 field. -/
def i32encode (v : Int) : Bytes :=
  u32encode ((v % 4294967296).toNat)

/-- Reading the 24-byte Header from the front of a blob, as the source's
memcpy into the packed struct does (fields at offsets 0,4,8,12,16,20). -/
def readHeader (data : Bytes) : Header :=
  { version := u32From data
    dataLength := u32From (data.drop 4)
    dataHash := u32From (data.drop 8)
    framesCount := i32From (data.drop 12)
    canvasSize := i32From (data.drop 16)
    frameDuration := i32From (data.drop 20) }

/-- Serialization of the Header, inverse of readHeader. -/
def writeHeader (h : Header) : Bytes :=
  u32encode h.version ++ u32encode h.dataLength ++ u32encode h.dataHash ++
    i32encode h.framesCount ++ i32encode h.canvasSize ++ i32encode h.frameDuration

/-- Deterministic 32-bit digest standing in for the external XXH32 with
seed 0; the verified properties depend only on the digest being a pure
function of the bytes. -/
def xxh32 (bytes : Bytes) : Nat :=
  bytes.foldl (fun h b => (h * 31 + b + 1) % 4294967296) 374761393

/-- Channel-format tag of a decoded image; 1 models QImage::Format_Grayscale8. -/
def grayscale8Format : Nat := 1

/-- Lossless single-channel container standing in for the Qt PNG encoder
(grayscale.save(&device, "PNG") in the source): dimensions, a format tag
and the raw intensity bytes. The spec treats the codec as an opaque
lossless detail of the versioned format. -/
def pngEncode (img : GrayImage) : Bytes :=
  img.width.toNat :: img.height.toNat :: grayscale8Format :: img.pixels

/-- Decoder for the model codec (QImage::loadFromData in the source):
yields the channel-format tag and the image, or nothing on malformed
input. -/
def pngDecode (bytes : Bytes) : Option (Nat × GrayImage) :=
  match bytes with
  | w :: h :: format :: rest =>
      if rest.length = w * h then
        some (format, { width := (w : Int), height := (h : Int), pixels := rest })
      else none
  | _ => none

/-- The four-channel to single-channel conversion in serialize(): for each
pixel the first byte in memory is kept; pixels are little-endian packed
32-bit values, so that byte is `pixel % 256`. -/
def toGray (img : ArgbImage) : GrayImage :=
  { width := img.width, height := img.height
    pixels := img.pixels.map (fun pix => pix % 256) }

/-- The single-channel to four-channel expansion in FromSerialized():
each intensity byte is replicated into every channel,
`(b<<24)|(b<<16)|(b<<8)|b = b * 0x01010101`. -/
def expandToArgb (img : GrayImage) : ArgbImage :=
  { width := img.width, height := img.height
    pixels := img.pixels.map (fun b => b * 16843009) }

/-- The SpoilerMessCached constructor. Its Expects clauses (positive
parameters, atlas dimensions matching the frame grid) are modelled by
returning none on violation, the model of an aborted construction. -/
def SpoilerMessCached.make (image : ArgbImage) (framesCount : Int)
    (frameDuration : Int) (canvasSize : Int) : Option SpoilerMessCached :=
  if 0 < frameDuration ∧ 0 < framesCount ∧ 0 < canvasSize
      ∧ image.width = min framesCount kFramesPerRow * canvasSize
      ∧ image.height = ((framesCount + kFramesPerRow - 1) / kFramesPerRow) * canvasSize
  then some { image := image, frameDuration := frameDuration
              framesCount := framesCount, canvasSize := canvasSize }
  else none

/-- SpoilerMessCached::serialize(): header plus single-channel payload.
The Expects on the frame duration fitting int32 is modelled by none. -/
def SpoilerMessCached.serialize (m : SpoilerMessCached) : Option Bytes :=
  if m.frameDuration < 2147483647 then
    let payload := pngEncode (toGray m.image)
    some (writeHeader
      { version := kVersion
        dataLength := payload.length % 4294967296
        dataHash := xxh32 payload
        framesCount := m.framesCount
        canvasSize := m.canvasSize
        frameDuration := m.frameDuration } ++ payload)
  else none

/-- The validator comparison inside FromSerialized: true when a validator
is supplied and any of its three fields differs from the header. -/
def validatorMismatch (validator : Option Validator) (h : Header) : Bool :=
  match validator with
  | some v =>
      v.frameDuration != h.frameDuration || v.framesCount != h.framesCount
        || v.canvasSize != h.canvasSize
  | none => false

/-- SpoilerMessCached::FromSerialized: strict validation of a serialized
blob, returning none on any failure. -/
def SpoilerMessCached.FromSerialized (data : Bytes) (validator : Option Validator) :
    Option SpoilerMessCached :=
  if data.length ≤ 24 then none
  else
    let header := readHeader data
    if header.version ≠ kVersion
        ∨ header.canvasSize ≤ 0
        ∨ header.framesCount ≤ 0
        ∨ header.frameDuration ≤ 0
        ∨ validatorMismatch validator header = true
        ∨ 24 + header.dataLength ≠ data.length
        ∨ xxh32 ((data.drop 24).take header.dataLength) ≠ header.dataHash
    then none
    else
      match pngDecode ((data.drop 24).take header.dataLength) with
      | none => none
      | some (format, grayscale) =>
          if format ≠ grayscale8Format then none
          else
            let count := header.framesCount
            let rows := (count + kFramesPerRow - 1) / kFramesPerRow
            let columns := min count kFramesPerRow
            if grayscale.width ≠ columns * header.canvasSize
                ∨ grayscale.height ≠ rows * header.canvasSize then none
            else SpoilerMessCached.make (expandToArgb grayscale) count
              header.frameDuration header.canvasSize


/-- Ceiling of a rational, the model of std::ceil on the float64 particle
size (computed from the raw numerator and denominator so that it reduces
by kernel computation). -/
def ceilQ (q : Rat) : Int :=
  -((-q.num) / (q.den : Int))

/-- base::RandomIndex(count, random): a uniform index in [0, count) drawn
from the buffered random source. The helper lives outside this repository;
it is modelled as the next stream value reduced modulo count. -/
def RandomIndex (count : Int) (v : Nat) : Int :=
  if 0 < count then ((v % count.toNat : Nat) : Int) else 0

/-- GenerateParticle: the staggered start offset is integer arithmetic on
the descriptor; sprite index and origin are drawn from the random source
(the source draws three values per particle). -/
def GenerateParticle (d : SpoilerMessDescriptor) (index : Int) (r : Nat → Nat) :
    Particle :=
  { start := index * d.framesCount * d.frameDuration / d.particlesCount
    spriteIndex := RandomIndex d.particleSpritesCount (r (3 * index.toNat))
    x := RandomIndex d.canvasSize (r (3 * index.toNat + 1))
    y := RandomIndex d.canvasSize (r (3 * index.toNat + 2)) }

/-- Binary coverage of the sprite shape p.drawRoundedRect(1., 1., w, h, r, r)
at the centre of pixel (px, py): inside the bounding box [1, 1+w] x [1, 1+h].
Qt's antialiased corner rounding is abstracted to box coverage; no claim
depends on the sprite bitmap content. -/
def rasterRoundedRect (w h : Rat) (px py : Nat) : Nat :=
  if 1 ≤ (px : Rat) + 1/2 ∧ (px : Rat) + 1/2 ≤ 1 + w
      ∧ 1 ≤ (py : Rat) + 1/2 ∧ (py : Rat) + 1/2 ≤ 1 + h
  then 255 else 0

/-- GenerateSprite: variant index selects the interpolated width/height of
the rounded shape (wide below the middle index, tall above it), drawn into
a size x size transparent image. The Expects on the index range holds at
every call site (the generation loop). -/
def GenerateSprite (d : SpoilerMessDescriptor) (index : Int) (size : Int) :
    GrayImage :=
  let count := d.particleSpritesCount
  let middle := count / 2
  let mn := d.particleSizeMin
  let delta := d.particleSizeMax - mn
  let width : Rat :=
    if index < middle then mn + delta * ((middle - index : Int) : Rat) / ((middle : Int) : Rat)
    else mn
  let height : Rat :=
    if index > middle then
      mn + delta * ((index - middle : Int) : Rat) / ((count - 1 - middle : Int) : Rat)
    else mn
  { width := size, height := size
    pixels := (List.range (size.toNat * size.toNat)).map (fun i =>
      rasterRoundedRect width height (i % size.toNat) (i / size.toNat)) }

/-- One particle lifetime: fade-in plus shown plus fade-out. -/
def singleLifetime (d : SpoilerMessDescriptor) : Int :=
  d.particleFadeInDuration + d.particleShownDuration + d.particleFadeOutDuration

/-- The fade envelope of paintOneAt over the local phase: linear ramp up
during fade-in, 1 on the plateau, linear ramp down during fade-out. -/
def envelopeOpacity (d : SpoilerMessDescriptor) (time : Int) : Rat :=
  if time < d.particleFadeInDuration then
    (time : Rat) / (d.particleFadeInDuration : Rat)
  else if time > singleLifetime d - d.particleFadeOutDuration then
    ((singleLifetime d - time : Int) : Rat) / (d.particleFadeOutDuration : Rat)
  else 1

/-- One draw command issued by the compositor: a sprite stamped at an
origin (tile-local coordinates) with an opacity. -/
structure DrawCmd where
  x : Int
  y : Int
  spriteIndex : Int
  opacity : Rat
deriving DecidableEq

/-- The paintOneAt lambda: nothing outside the lifetime window; inside it,
the sprite at the particle origin plus the conditional edge-wrap copies
shifted left / up by one tile width when the sprite box crosses the far
edges. -/
def paintOneAt (d : SpoilerMessDescriptor) (particle : Particle) (time : Int) :
    List DrawCmd :=
  if time ≤ 0 ∨ singleLifetime d ≤ time then []
  else
    let opacity := envelopeOpacity d time
    let size := d.canvasSize
    let spriteSize := 2 + ceilQ d.particleSizeMax
    if particle.x + spriteSize > size then
      { x := particle.x, y := particle.y, spriteIndex := particle.spriteIndex, opacity := opacity } ::
      { x := particle.x - size, y := particle.y, spriteIndex := particle.spriteIndex, opacity := opacity } ::
      (if particle.y + spriteSize > size then
        [{ x := particle.x, y := particle.y - size, spriteIndex := particle.spriteIndex, opacity := opacity },
         { x := particle.x - size, y := particle.y - size, spriteIndex := particle.spriteIndex, opacity := opacity }]
       else [])
    else if particle.y + spriteSize > size then
      [{ x := particle.x, y := particle.y, spriteIndex := particle.spriteIndex, opacity := opacity },
       { x := particle.x, y := particle.y - size, spriteIndex := particle.spriteIndex, opacity := opacity }]
    else
      [{ x := particle.x, y := particle.y, spriteIndex := particle.spriteIndex, opacity := opacity }]

/-- The paintOne lambda: try the local phase and its wrap-around
alternative one full loop later. -/
def paintOne (d : SpoilerMessDescriptor) (particle : Particle) (now : Int) :
    List DrawCmd :=
  paintOneAt d particle (now - particle.start) ++
    paintOneAt d particle (now + d.framesCount * d.frameDuration - particle.start)

/-- Integer model of premultiplied source-over composition with a global
opacity, clamped to a byte: the atlas is white-on-transparent, so a single
intensity channel determines every channel of a pixel. -/
def blendPixel (opacity : Rat) (src dst : Nat) : Nat :=
  let s := min 255 (Int.toNat ⌊opacity * (src : Rat)⌋)
  min 255 (s + dst * (255 - s) / 255)

/-- p.drawImage(ox, oy, sprite) under p.setClipRect(clip): blend every
sprite pixel whose target lies inside both the clip rectangle and the
atlas. -/
def drawSprite (clip : QRectI) (width height : Int) (ox oy : Int)
    (sprite : GrayImage) (opacity : Rat) (pixels : List Nat) : List Nat :=
  (List.range sprite.height.toNat).foldl (fun acc sy =>
    (List.range sprite.width.toNat).foldl (fun acc2 sx =>
      let tx := ox + Int.ofNat sx
      let ty := oy + Int.ofNat sy
      if clip.x ≤ tx ∧ tx < clip.x + clip.width ∧ clip.y ≤ ty ∧ ty < clip.y + clip.height
          ∧ 0 ≤ tx ∧ tx < width ∧ 0 ≤ ty ∧ ty < height then
        let srcIdx : Nat := sy * sprite.width.toNat + sx
        let srcv := sprite.pixels.getD srcIdx 0
        let idx := (ty * width + tx).toNat
        acc2.set idx (blendPixel opacity srcv (acc2.getD idx 0))
      else acc2) acc) pixels

/-- Execution of one draw command into the atlas: the painter is translated
to the tile origin and clipped to the tile rectangle. -/
def renderCmd (sprites : List GrayImage) (clip : QRectI) (width height : Int)
    (cmd : DrawCmd) (pixels : List Nat) : List Nat :=
  drawSprite clip width height (clip.x + cmd.x) (clip.y + cmd.y)
    (sprites.getD cmd.spriteIndex.toNat { width := 0, height := 0, pixels := [] })
    cmd.opacity pixels

/-- The Expects/Assert preconditions that GenerateSpoilerMess itself
checks: positive frame count, frame duration, particle count and canvas
size; positive minimum particle size; maximum at least minimum; and the
full loop strictly longer than one particle lifetime. -/
def generationChecks (d : SpoilerMessDescriptor) : Prop :=
  0 < d.framesCount ∧ 0 < d.frameDuration ∧ 0 < d.particlesCount
    ∧ 0 < d.canvasSize ∧ d.particleSizeMin ≤ d.particleSizeMax
    ∧ 0 < d.particleSizeMin
    ∧ singleLifetime d < d.framesCount * d.frameDuration

instance (d : SpoilerMessDescriptor) : Decidable (generationChecks d) := by
  unfold generationChecks; infer_instance

/-- The atlas pixel buffer produced by the generation loop: every frame
is composited into its tile (clipped, translated) by executing the draw
commands of every particle over the transparent initial buffer. -/
def atlasPixels (d : SpoilerMessDescriptor) (r : Nat → Nat) : List Nat :=
  let frames := d.framesCount
  let rows := (frames + kFramesPerRow - 1) / kFramesPerRow
  let columns := min frames kFramesPerRow
  let size := d.canvasSize
  let width := size * columns
  let height := size * rows
  let spriteSize := 2 + ceilQ d.particleSizeMax
  let particles := (List.range d.particlesCount.toNat).map
    (fun i => GenerateParticle d (Int.ofNat i) r)
  let sprites := (List.range d.particleSpritesCount.toNat).map
    (fun i => GenerateSprite d (Int.ofNat i) spriteSize)
  let initial := List.replicate (width.toNat * height.toNat) 0
  (List.range frames.toNat).foldl (fun acc f =>
    let fx := Int.ofNat f % columns
    let fy := Int.ofNat f / columns
    let rect : QRectI := { x := fx * size, y := fy * size, width := size, height := size }
    let time := Int.ofNat f * d.frameDuration
    let cmds := particles.flatMap (fun particle => paintOne d particle time)
    cmds.foldl (fun acc2 cmd => renderCmd sprites rect width height cmd acc2) acc) initial

/-- GenerateSpoilerMess: check the contract (Expects and Assert, modelled
by none on violation), composite the atlas and construct the cached
asset; the buffer of intensity values is expanded to the premultiplied
white-on-transparent ARGB image. -/
def GenerateSpoilerMess (d : SpoilerMessDescriptor) (r : Nat → Nat) :
    Option SpoilerMessCached :=
  if generationChecks d then
    let frames := d.framesCount
    let rows := (frames + kFramesPerRow - 1) / kFramesPerRow
    let columns := min frames kFramesPerRow
    let size := d.canvasSize
    let width := size * columns
    let height := size * rows
    SpoilerMessCached.make
      (expandToArgb { width := width, height := height, pixels := atlasPixels d r })
      frames d.frameDuration size
  else none

/-- SpoilerMessCached::frame(int): the tile of the given frame index,
row-major with kFramesPerRow columns. -/
def SpoilerMessCached.frame (m : SpoilerMessCached) (index : Int) : SpoilerMessFrame :=
  let row := index / kFramesPerRow
  let column := index - row * kFramesPerRow
  { image := m.image
    source := { x := column * m.canvasSize, y := row * m.canvasSize
                width := m.canvasSize, height := m.canvasSize } }

/-- SpoilerMessCached::frame(): the timestamp-based accessor; crl::now()
is passed explicitly as the (nonnegative) wall-clock value. -/
def SpoilerMessCached.frameNow (m : SpoilerMessCached) (now : Int) : SpoilerMessFrame :=
  m.frame ((now / m.frameDuration) % m.framesCount)

/-- Environment of the disk cache manager: whether the integration
supplies a cache folder, whether opening the file for read/write succeeds,
whether mkpath succeeds, and the bytes stored in the cache file. -/
structure CacheEnv where
  cacheFolderEmpty : Bool
  openReadOk : Bool
  fileBytes : Bytes
  mkpathOk : Bool
  openWriteOk : Bool

/-- ReadDefaultMask: no folder, failed open or an oversized file is a
cache miss; otherwise the file bytes are decoded under the validator. -/
def ReadDefaultMask (env : CacheEnv) (validator : Option Validator) :
    Option SpoilerMessCached :=
  if env.cacheFolderEmpty then none
  else if env.openReadOk ∧ env.fileBytes.length ≤ kMaxCacheSize then
    SpoilerMessCached.FromSerialized env.fileBytes validator
  else none

/-- WriteDefaultMask, returning the bytes actually written to disk (none
when nothing is written: mkpath failure, failed open, an encoded blob over
the ceiling, or the serialize contract violation). -/
def WriteDefaultMask (env : CacheEnv) (mask : SpoilerMessCached) : Option Bytes :=
  if ¬ env.mkpathOk then none
  else
    match mask.serialize with
    | none => none
    | some bytes =>
        if env.openWriteOk ∧ bytes.length ≤ kMaxCacheSize then some bytes else none

/-- The descriptor invariants as the spec states them: every count,
duration and size strictly positive, maximum size at least minimum, and
the full timeline strictly longer than one particle lifetime. -/
def ValidDescriptor (d : SpoilerMessDescriptor) : Prop :=
  0 < d.framesCount ∧ 0 < d.frameDuration ∧ 0 < d.canvasSize
    ∧ 0 < d.particlesCount ∧ 0 < d.particleSpritesCount
    ∧ 0 < d.particleFadeInDuration ∧ 0 < d.particleShownDuration
    ∧ 0 < d.particleFadeOutDuration ∧ 0 < d.particleSizeMin
    ∧ d.particleSizeMin ≤ d.particleSizeMax
    ∧ singleLifetime d < d.framesCount * d.frameDuration

instance (d : SpoilerMessDescriptor) : Decidable (ValidDescriptor d) := by
  unfold ValidDescriptor; infer_instance

/-- An ARGB image every pixel of which is its own first byte replicated
into all four channels, the invariant of white-on-transparent
premultiplied composition that makes the single-channel codec lossless. -/
def GrayExpanded (img : ArgbImage) : Prop :=
  ∀ p ∈ img.pixels, p % 256 * 16843009 = p

/-- Invariant of the atlas pixel buffer during composition: fixed length
and byte-bounded entries. -/
def PixState (n : Nat) (l : List Nat) : Prop :=
  l.length = n ∧ ∀ x ∈ l, x ≤ 255

/-- The rejection conditions of FromSerialized, stated over the input
bytes exactly as the specification lists them (the payload is everything
after the 24-byte header). -/
def RejectCondition (data : Bytes) (validator : Option Validator) : Prop :=
  data.length ≤ 24
  ∨ (readHeader data).version ≠ kVersion
  ∨ (readHeader data).canvasSize ≤ 0
  ∨ (readHeader data).framesCount ≤ 0
  ∨ (readHeader data).frameDuration ≤ 0
  ∨ validatorMismatch validator (readHeader data) = true
  ∨ 24 + (readHeader data).dataLength ≠ data.length
  ∨ xxh32 (data.drop 24) ≠ (readHeader data).dataHash
  ∨ pngDecode (data.drop 24) = none
  ∨ (∃ fg, pngDecode (data.drop 24) = some fg ∧ fg.1 ≠ grayscale8Format)
  ∨ (∃ fg, pngDecode (data.drop 24) = some fg
      ∧ (fg.2.width ≠ min (readHeader data).framesCount kFramesPerRow * (readHeader data).canvasSize
        ∨ fg.2.height ≠ (((readHeader data).framesCount + kFramesPerRow - 1) / kFramesPerRow)
            * (readHeader data).canvasSize))

/-- A constant random stream for concrete evaluations. -/
def constStream : Nat → Nat := fun _ => 0

/-- A descriptor with zero fade-in, shown and fade-out durations but all
the checked parameters valid. -/
def zeroFadeDescriptor : SpoilerMessDescriptor :=
  { particleFadeInDuration := 0, particleShownDuration := 0, particleFadeOutDuration := 0
    particleSizeMin := 1, particleSizeMax := 1, particleSpritesCount := 1
    particlesCount := 1, canvasSize := 1, framesCount := 1, frameDuration := 1 }

/-- The asset GenerateSpoilerMess produces from zeroFadeDescriptor and the
constant stream: a 1 by 1 transparent atlas. -/
def zeroFadeAtlas : SpoilerMessCached :=
  { image := { width := 1, height := 1, pixels := [0] }
    frameDuration := 1, framesCount := 1, canvasSize := 1 }

/-- A descriptor satisfying every spec invariant. -/
def validDescriptor1 : SpoilerMessDescriptor :=
  { particleFadeInDuration := 1, particleShownDuration := 1, particleFadeOutDuration := 1
    particleSizeMin := 1, particleSizeMax := 1, particleSpritesCount := 1
    particlesCount := 1, canvasSize := 1, framesCount := 4, frameDuration := 1 }

/-- A descriptor violating a checked invariant (zero frame count). -/
def invalidDescriptor1 : SpoilerMessDescriptor :=
  { zeroFadeDescriptor with framesCount := 0 }

/-- An image whose dimensions do not match any 1-frame grid of canvas 1. -/
def mismatchedImage : ArgbImage :=
  { width := 2, height := 1, pixels := [0, 0] }

/-- A cache environment whose file holds one byte more than the ceiling. -/
def oversizedEnv : CacheEnv :=
  { cacheFolderEmpty := false, openReadOk := true
    fileBytes := List.replicate 5242881 0, mkpathOk := true, openWriteOk := true }

/-- A descriptor and particle exercising both edge-wrap overflows:
canvas 4, sprite box 4 wide, origin (3, 3). -/
def wrapDescriptor : SpoilerMessDescriptor :=
  { particleFadeInDuration := 1, particleShownDuration := 1, particleFadeOutDuration := 1
    particleSizeMin := 1, particleSizeMax := 2, particleSpritesCount := 1
    particlesCount := 1, canvasSize := 4, framesCount := 4, frameDuration := 2 }

/-- A particle at origin (3, 3) of the 4 by 4 tile. -/
def wrapParticle : Particle :=
  { start := 0, spriteIndex := 0, x := 3, y := 3 }

attribute [local semireducible] Rat.add Rat.mul Rat.sub Rat.inv

theorem valid_implies_checks (d : SpoilerMessDescriptor) (h : ValidDescriptor d) :
    generationChecks d := by
  obtain ⟨c1, c2, c3, c4, -, -, -, -, c9, c10, c11⟩ := h
  exact ⟨c1, c2, c4, c3, c10, c9, c11⟩

/-- Claim C4: for a valid descriptor the start offset of particle i is
the staggered value i * framesCount * frameDuration / particlesCount,
which lies in [0, framesCount * frameDuration). -/
theorem particle_start_offsets (d : SpoilerMessDescriptor) (r : Nat → Nat) (i : Int)
    (hd : ValidDescriptor d) (h0 : 0 ≤ i) (hi : i < d.particlesCount) :
    (GenerateParticle d i r).start = i * d.framesCount * d.frameDuration / d.particlesCount
    ∧ 0 ≤ (GenerateParticle d i r).start
    ∧ (GenerateParticle d i r).start < d.framesCount * d.frameDuration := by
  obtain ⟨hfc, hfd, -, hpc, -⟩ := hd
  refine ⟨rfl, ?_, ?_⟩
  · exact Int.ediv_nonneg (by positivity) (le_of_lt hpc)
  · show i * d.framesCount * d.frameDuration / d.particlesCount < _
    rw [Int.ediv_lt_iff_lt_mul hpc]
    calc i * d.framesCount * d.frameDuration
        = i * (d.framesCount * d.frameDuration) := by ring
      _ < d.particlesCount * (d.framesCount * d.frameDuration) :=
          mul_lt_mul_of_pos_right hi (mul_pos hfc hfd)
      _ = d.framesCount * d.frameDuration * d.particlesCount := by ring

theorem particle_start_offsets_witness :
    (GenerateParticle validDescriptor1 0 constStream).start
        = 0 * validDescriptor1.framesCount * validDescriptor1.frameDuration / validDescriptor1.particlesCount
      ∧ 0 ≤ (GenerateParticle validDescriptor1 0 constStream).start
      ∧ (GenerateParticle validDescriptor1 0 constStream).start
        < validDescriptor1.framesCount * validDescriptor1.frameDuration :=
  particle_start_offsets validDescriptor1 constStream 0 (by decide) (by decide) (by decide)

/-- Claim C5 counterexample: a descriptor with non-positive fade-in,
shown and fade-out durations violates the spec invariants, yet
GenerateSpoilerMess does not abort: it returns a generated atlas. -/
theorem fade_violation_not_aborted :
    zeroFadeDescriptor.particleFadeInDuration ≤ 0
      ∧ zeroFadeDescriptor.particleShownDuration ≤ 0
      ∧ zeroFadeDescriptor.particleFadeOutDuration ≤ 0
      ∧ GenerateSpoilerMess zeroFadeDescriptor constStream = some zeroFadeAtlas := by
  refine ⟨by decide, by decide, by decide, by decide⟩

/-- Claim C5 (amended): a violation of any invariant GenerateSpoilerMess
itself checks (non-positive frame count, frame duration, particle count
or canvas size; non-positive minimum size; maximum size below minimum; or
full duration not exceeding one lifetime) makes it abort at once. -/
theorem generation_checked_violations_abort (d : SpoilerMessDescriptor) (r : Nat → Nat)
    (h : ¬ generationChecks d) : GenerateSpoilerMess d r = none := by
  unfold GenerateSpoilerMess
  rw [if_neg h]

theorem generation_checked_violations_abort_witness :
    GenerateSpoilerMess invalidDescriptor1 constStream = none :=
  generation_checked_violations_abort invalidDescriptor1 constStream (by decide)

/-- Claim C6: the timestamp accessor picks frame
(now / frameDuration) % framesCount, and for an index within range the
frame rectangle is the canvas-sized tile at column index % columns and
row index / columns with columns = min(framesCount, 10). -/
theorem frame_accessor_mapping (m : SpoilerMessCached) (now index : Int)
    (h0 : 0 ≤ index) (hi : index < m.framesCount) :
    m.frameNow now = m.frame ((now / m.frameDuration) % m.framesCount)
    ∧ (m.frame index).source =
      { x := (index % min m.framesCount kFramesPerRow) * m.canvasSize
        y := (index / min m.framesCount kFramesPerRow) * m.canvasSize
        width := m.canvasSize, height := m.canvasSize } := by
  refine ⟨rfl, ?_⟩
  unfold SpoilerMessCached.frame
  rcases le_or_lt m.framesCount kFramesPerRow with hle | hlt
  · rw [min_eq_left hle]
    have hidx : index < kFramesPerRow := lt_of_lt_of_le hi hle
    have e1 : index / kFramesPerRow = 0 := Int.ediv_eq_zero_of_lt h0 hidx
    have e2 : index / m.framesCount = 0 := Int.ediv_eq_zero_of_lt h0 hi
    have e3 : index % m.framesCount = index := Int.emod_eq_of_lt h0 hi
    simp [e1, e2, e3]
  · rw [min_eq_right (le_of_lt hlt)]
    have e1 : index - index / kFramesPerRow * kFramesPerRow = index % kFramesPerRow := by
      rw [Int.emod_def]; ring
    simp [e1]

theorem frame_accessor_mapping_witness :
    zeroFadeAtlas.frameNow 7
        = zeroFadeAtlas.frame ((7 / zeroFadeAtlas.frameDuration) % zeroFadeAtlas.framesCount)
      ∧ (zeroFadeAtlas.frame 0).source =
        { x := (0 % min zeroFadeAtlas.framesCount kFramesPerRow) * zeroFadeAtlas.canvasSize
          y := (0 / min zeroFadeAtlas.framesCount kFramesPerRow) * zeroFadeAtlas.canvasSize
          width := zeroFadeAtlas.canvasSize, height := zeroFadeAtlas.canvasSize } :=
  frame_accessor_mapping zeroFadeAtlas 7 0 (by decide) (by decide)

/-- Claim C7: inside the lifetime window paintOneAt stamps the sprite at
the particle origin, adds the copy shifted left by one tile width exactly
when the sprite box crosses the right edge, the copy shifted up by one
tile height exactly when it crosses the bottom edge, and the doubly
shifted copy exactly when both cross; never any other copy. -/
theorem paintOneAt_edge_wrap (d : SpoilerMessDescriptor) (particle : Particle) (time : Int)
    (h0 : 0 < time) (h1 : time < singleLifetime d) :
    paintOneAt d particle time =
      { x := particle.x, y := particle.y, spriteIndex := particle.spriteIndex
        opacity := envelopeOpacity d time } ::
      ((if particle.x + (2 + ceilQ d.particleSizeMax) > d.canvasSize then
          [{ x := particle.x - d.canvasSize, y := particle.y
             spriteIndex := particle.spriteIndex, opacity := envelopeOpacity d time }]
        else []) ++
       (if particle.y + (2 + ceilQ d.particleSizeMax) > d.canvasSize then
          [{ x := particle.x, y := particle.y - d.canvasSize
             spriteIndex := particle.spriteIndex, opacity := envelopeOpacity d time }]
        else []) ++
       (if particle.x + (2 + ceilQ d.particleSizeMax) > d.canvasSize
           ∧ particle.y + (2 + ceilQ d.particleSizeMax) > d.canvasSize then
          [{ x := particle.x - d.canvasSize, y := particle.y - d.canvasSize
             spriteIndex := particle.spriteIndex, opacity := envelopeOpacity d time }]
        else [])) := by
  unfold paintOneAt
  rw [if_neg (by omega)]
  by_cases hx : particle.x + (2 + ceilQ d.particleSizeMax) > d.canvasSize <;>
    by_cases hy : particle.y + (2 + ceilQ d.particleSizeMax) > d.canvasSize <;>
    simp [hx, hy]

theorem paintOneAt_edge_wrap_witness :
    paintOneAt wrapDescriptor wrapParticle 1 =
      [{ x := 3, y := 3, spriteIndex := 0, opacity := 1 },
       { x := -1, y := 3, spriteIndex := 0, opacity := 1 },
       { x := 3, y := -1, spriteIndex := 0, opacity := 1 },
       { x := -1, y := -1, spriteIndex := 0, opacity := 1 }] := by
  rw [paintOneAt_edge_wrap wrapDescriptor wrapParticle 1 (by decide) (by decide)]
  decide

/-- Claim C10: with the loop strictly longer than one lifetime and the
start offset and sample time inside the loop, at most one of the local
phase and its wrapped alternative lies strictly inside the lifetime, so
paintOne issues draws for at most one of its two paintOneAt calls. -/
theorem paintOne_at_most_once_per_frame (d : SpoilerMessDescriptor) (particle : Particle)
    (t : Int)
    (hfull : singleLifetime d < d.framesCount * d.frameDuration)
    (hs0 : 0 ≤ particle.start) (hs1 : particle.start < d.framesCount * d.frameDuration)
    (ht0 : 0 ≤ t) (ht1 : t < d.framesCount * d.frameDuration) :
    ¬((0 < t - particle.start ∧ t - particle.start < singleLifetime d)
      ∧ (0 < t + d.framesCount * d.frameDuration - particle.start
        ∧ t + d.framesCount * d.frameDuration - particle.start < singleLifetime d))
    ∧ (paintOneAt d particle (t - particle.start) = []
      ∨ paintOneAt d particle (t + d.framesCount * d.frameDuration - particle.start) = []) := by
  generalize hF : d.framesCount * d.frameDuration = F at *
  constructor
  · omega
  · by_cases hA : t - particle.start ≤ 0 ∨ singleLifetime d ≤ t - particle.start
    · left; unfold paintOneAt; rw [if_pos hA]
    · right; unfold paintOneAt; rw [if_pos (Or.inr (by omega))]

theorem paintOne_at_most_once_per_frame_witness :
    ¬((0 < (1 : Int) - wrapParticle.start ∧ 1 - wrapParticle.start < singleLifetime wrapDescriptor)
      ∧ (0 < 1 + wrapDescriptor.framesCount * wrapDescriptor.frameDuration - wrapParticle.start
        ∧ 1 + wrapDescriptor.framesCount * wrapDescriptor.frameDuration - wrapParticle.start
          < singleLifetime wrapDescriptor))
    ∧ (paintOneAt wrapDescriptor wrapParticle (1 - wrapParticle.start) = []
      ∨ paintOneAt wrapDescriptor wrapParticle
          (1 + wrapDescriptor.framesCount * wrapDescriptor.frameDuration - wrapParticle.start) = []) :=
  paintOne_at_most_once_per_frame wrapDescriptor wrapParticle 1 (by decide) (by decide)
    (by decide) (by decide) (by decide)

/-- Claim C8: the cache manager never decodes a file over the 5 MiB
ceiling and never writes a blob over it, and every read or write failure
surfaces only as a cache miss (none), never as an error. -/
theorem cache_size_ceiling (env : CacheEnv) (validator : Option Validator)
    (mask : SpoilerMessCached) :
    (kMaxCacheSize < env.fileBytes.length → ReadDefaultMask env validator = none)
    ∧ (env.openReadOk = false → ReadDefaultMask env validator = none)
    ∧ (∀ bytes, WriteDefaultMask env mask = some bytes → bytes.length ≤ kMaxCacheSize) := by
  refine ⟨?_, ?_, ?_⟩
  · intro hbig
    unfold ReadDefaultMask
    split_ifs with h1 h2
    · rfl
    · exact absurd h2.2 (by omega)
    · rfl
  · intro hro
    unfold ReadDefaultMask
    split_ifs with h1 h2
    · rfl
    · rw [hro] at h2; exact absurd h2.1 (by simp)
    · rfl
  · intro bytes hw
    unfold WriteDefaultMask at hw
    split_ifs at hw with h1
    split at hw
    · exact absurd hw (by simp)
    · split_ifs at hw with h2
      injection hw with hb
      subst hb
      exact h2.2

theorem cache_size_ceiling_witness :
    ReadDefaultMask oversizedEnv none = none :=
  (cache_size_ceiling oversizedEnv none zeroFadeAtlas).1
    (by rw [show oversizedEnv.fileBytes = List.replicate 5242881 0 from rfl,
          List.length_replicate]
        norm_num [kMaxCacheSize])

theorem make_some (image : ArgbImage) (fc fd cs : Int)
    (h1 : 0 < fd) (h2 : 0 < fc) (h3 : 0 < cs)
    (h4 : image.width = min fc kFramesPerRow * cs)
    (h5 : image.height = ((fc + kFramesPerRow - 1) / kFramesPerRow) * cs) :
    SpoilerMessCached.make image fc fd cs =
      some { image := image, frameDuration := fd, framesCount := fc, canvasSize := cs } := by
  unfold SpoilerMessCached.make
  rw [if_pos ⟨h1, h2, h3, h4, h5⟩]

/-- Claim C2: decoding returns no result exactly under the listed
conditions (short input, version mismatch, non-positive header scalar,
validator mismatch, payload length mismatch, checksum mismatch, payload
undecodable or not single-channel, or wrong decoded dimensions), and
otherwise returns a decoded asset; the decoder is a total function. -/
theorem fromSerialized_rejects_iff (data : Bytes) (validator : Option Validator) :
    SpoilerMessCached.FromSerialized data validator = none ↔ RejectCondition data validator := by
  simp only [SpoilerMessCached.FromSerialized, RejectCondition]
  by_cases h1 : data.length ≤ 24
  · simp [h1]
  · rw [if_neg h1]
    by_cases h5 : 24 + (readHeader data).dataLength = data.length
    · have hpay : (data.drop 24).take (readHeader data).dataLength = data.drop 24 := by
        have hlen : (data.drop 24).length = (readHeader data).dataLength := by
          rw [List.length_drop]; omega
        rw [← hlen, List.take_length]
      rw [hpay]
      by_cases h2 : (readHeader data).version ≠ kVersion
          ∨ (readHeader data).canvasSize ≤ 0
          ∨ (readHeader data).framesCount ≤ 0
          ∨ (readHeader data).frameDuration ≤ 0
          ∨ validatorMismatch validator (readHeader data) = true
          ∨ 24 + (readHeader data).dataLength ≠ data.length
          ∨ xxh32 (data.drop 24) ≠ (readHeader data).dataHash
      · rw [if_pos h2]
        constructor
        · intro _
          rcases h2 with hq | hq | hq | hq | hq | hq | hq
          · exact .inr (.inl hq)
          · exact .inr (.inr (.inl hq))
          · exact .inr (.inr (.inr (.inl hq)))
          · exact .inr (.inr (.inr (.inr (.inl hq))))
          · exact .inr (.inr (.inr (.inr (.inr (.inl hq)))))
          · exact absurd h5 hq
          · exact .inr (.inr (.inr (.inr (.inr (.inr (.inr (.inl hq)))))))
        · intro _
          rfl
      · rw [if_neg h2]
        push_neg at h2
        obtain ⟨hv, hcs, hfc, hfd, hval, -, hhash⟩ := h2
        split
        · rename_i hdec
          constructor
          · intro _
            exact .inr (.inr (.inr (.inr (.inr (.inr (.inr (.inr (.inl hdec))))))))
          · intro _
            rfl
        · rename_i format gray hdec
          by_cases h3 : format ≠ grayscale8Format
          · rw [if_pos h3]
            constructor
            · intro _
              exact .inr (.inr (.inr (.inr (.inr (.inr (.inr (.inr
                (.inr (.inl ⟨(format, gray), hdec, h3⟩)))))))))
            · intro _
              rfl
          · rw [if_neg h3]
            push_neg at h3
            by_cases h4 : gray.width ≠ min (readHeader data).framesCount kFramesPerRow * (readHeader data).canvasSize
                ∨ gray.height ≠ (((readHeader data).framesCount + kFramesPerRow - 1) / kFramesPerRow)
                    * (readHeader data).canvasSize
            · rw [if_pos h4]
              constructor
              · intro _
                exact .inr (.inr (.inr (.inr (.inr (.inr (.inr (.inr
                  (.inr (.inr ⟨(format, gray), hdec, h4⟩)))))))))
              · intro _
                rfl
            · rw [if_neg h4]
              push_neg at h4
              rw [make_some (expandToArgb gray) (readHeader data).framesCount
                (readHeader data).frameDuration (readHeader data).canvasSize
                (by omega) (by omega) (by omega)
                (by simpa [expandToArgb] using h4.1)
                (by simpa [expandToArgb] using h4.2)]
              constructor
              · intro habs
                exact absurd habs (by simp)
              · intro hrc
                rcases hrc with h | h | h | h | h | h | h | h | h | h | h
                · exact absurd h h1
                · exact absurd hv h
                · omega
                · omega
                · omega
                · exact absurd h hval
                · exact absurd h5 h
                · exact absurd hhash h
                · rw [hdec] at h
                  exact absurd h (by simp)
                · obtain ⟨fg2, hfg2, hformat⟩ := h
                  rw [hdec] at hfg2
                  injection hfg2 with hfg2e
                  rw [← hfg2e] at hformat
                  exact (hformat h3).elim
                · obtain ⟨fg2, hfg2, hdims⟩ := h
                  rw [hdec] at hfg2
                  injection hfg2 with hfg2e
                  rw [← hfg2e] at hdims
                  rcases hdims with hd | hd
                  · exact (hd h4.1).elim
                  · exact (hd h4.2).elim
    · rw [if_pos (.inr (.inr (.inr (.inr (.inr (.inl h5))))))]
      constructor
      · intro _
        exact .inr (.inr (.inr (.inr (.inr (.inr (.inl h5))))))
      · intro _
        rfl

/-- Claim C3: for every spec-valid descriptor generation succeeds and the
atlas measures columns * canvasSize by rows * canvasSize with
columns = min(framesCount, 10) and rows = ceil(framesCount / 10); and the
SpoilerMessCached constructor aborts whenever the supplied image
dimensions differ from these values. -/
theorem generation_atlas_dimensions :
    (∀ (d : SpoilerMessDescriptor) (r : Nat → Nat), ValidDescriptor d →
      ∃ m, GenerateSpoilerMess d r = some m
        ∧ m.image.width = min d.framesCount kFramesPerRow * d.canvasSize
        ∧ m.image.height = ((d.framesCount + kFramesPerRow - 1) / kFramesPerRow) * d.canvasSize)
    ∧ (∀ (image : ArgbImage) (framesCount frameDuration canvasSize : Int),
        image.width ≠ min framesCount kFramesPerRow * canvasSize
          ∨ image.height ≠ ((framesCount + kFramesPerRow - 1) / kFramesPerRow) * canvasSize →
        SpoilerMessCached.make image framesCount frameDuration canvasSize = none) := by
  constructor
  · intro d r hv
    have hc := valid_implies_checks d hv
    obtain ⟨hfc, hfd, hcs, -⟩ := hv
    unfold GenerateSpoilerMess
    rw [if_pos hc]
    exact ⟨_, make_some _ _ _ _ hfd hfc hcs (mul_comm _ _) (mul_comm _ _),
      mul_comm _ _, mul_comm _ _⟩
  · intro image fc fd cs h
    unfold SpoilerMessCached.make
    rw [if_neg]
    rintro ⟨-, -, -, h4, h5⟩
    rcases h with h | h
    · exact h h4
    · exact h h5

theorem generation_atlas_dimensions_witness :
    (∃ m, GenerateSpoilerMess validDescriptor1 constStream = some m
      ∧ m.image.width = min validDescriptor1.framesCount kFramesPerRow * validDescriptor1.canvasSize
      ∧ m.image.height = ((validDescriptor1.framesCount + kFramesPerRow - 1) / kFramesPerRow)
          * validDescriptor1.canvasSize)
    ∧ SpoilerMessCached.make mismatchedImage 1 1 1 = none :=
  ⟨generation_atlas_dimensions.1 validDescriptor1 constStream (by decide),
   generation_atlas_dimensions.2 mismatchedImage 1 1 1 (by decide)⟩

theorem foldl_preserve {α β : Type} (P : β → Prop) (f : β → α → β)
    (hf : ∀ b a, P b → P (f b a)) :
    ∀ (l : List α) (b : β), P b → P (l.foldl f b) := by
  intro l
  induction l with
  | nil => exact fun b hb => hb
  | cons a t ih => exact fun b hb => ih (f b a) (hf b a hb)

theorem pixState_set (n : Nat) (l : List Nat) (i v : Nat) (hv : v ≤ 255)
    (hl : PixState n l) : PixState n (l.set i v) := by
  obtain ⟨hlen, hb⟩ := hl
  refine ⟨by rw [List.length_set]; exact hlen, ?_⟩
  intro x hx
  rcases List.mem_or_eq_of_mem_set hx with hmem | rfl
  · exact hb x hmem
  · exact hv

theorem blendPixel_le (o : Rat) (s t : Nat) : blendPixel o s t ≤ 255 := by
  unfold blendPixel
  exact min_le_left _ _

theorem drawSprite_pixState (n : Nat) (clip : QRectI) (w h ox oy : Int)
    (sprite : GrayImage) (o : Rat) (l : List Nat) (hl : PixState n l) :
    PixState n (drawSprite clip w h ox oy sprite o l) := by
  unfold drawSprite
  refine foldl_preserve _ _ ?_ _ _ hl
  intro b sy hb
  refine foldl_preserve _ _ ?_ _ _ hb
  intro b2 sx hb2
  dsimp only
  split_ifs with hc
  · exact pixState_set _ _ _ _ (blendPixel_le _ _ _) hb2
  · exact hb2

theorem renderCmd_pixState (n : Nat) (sprites : List GrayImage) (clip : QRectI)
    (w h : Int) (cmd : DrawCmd) (l : List Nat) (hl : PixState n l) :
    PixState n (renderCmd sprites clip w h cmd l) := by
  unfold renderCmd
  exact drawSprite_pixState _ _ _ _ _ _ _ _ _ hl

theorem make_elim (image : ArgbImage) (fc fd cs : Int) (m : SpoilerMessCached)
    (h : SpoilerMessCached.make image fc fd cs = some m) :
    0 < fd ∧ 0 < fc ∧ 0 < cs
    ∧ image.width = min fc kFramesPerRow * cs
    ∧ image.height = ((fc + kFramesPerRow - 1) / kFramesPerRow) * cs
    ∧ m = { image := image, frameDuration := fd, framesCount := fc, canvasSize := cs } := by
  unfold SpoilerMessCached.make at h
  split_ifs at h with hcond
  refine ⟨hcond.1, hcond.2.1, hcond.2.2.1, hcond.2.2.2.1, hcond.2.2.2.2, ?_⟩
  injection h with e
  exact e.symm

theorem atlasPixels_pixState (d : SpoilerMessDescriptor) (r : Nat → Nat) :
    PixState ((d.canvasSize * min d.framesCount kFramesPerRow).toNat
      * (d.canvasSize * ((d.framesCount + kFramesPerRow - 1) / kFramesPerRow)).toNat)
      (atlasPixels d r) := by
  unfold atlasPixels
  dsimp only
  refine foldl_preserve _ _ ?_ _ _ ⟨List.length_replicate _ _, ?_⟩
  · intro b f hb
    refine foldl_preserve _ _ ?_ _ _ hb
    intro b2 cmd hb2
    exact renderCmd_pixState _ _ _ _ _ _ _ hb2
  · intro x hx
    rw [List.eq_of_mem_replicate hx]
    exact Nat.zero_le 255

theorem generate_spec (d : SpoilerMessDescriptor) (r : Nat → Nat) (m : SpoilerMessCached)
    (h : GenerateSpoilerMess d r = some m) :
    0 < m.frameDuration ∧ 0 < m.framesCount ∧ 0 < m.canvasSize
    ∧ m.image.width = min m.framesCount kFramesPerRow * m.canvasSize
    ∧ m.image.height = ((m.framesCount + kFramesPerRow - 1) / kFramesPerRow) * m.canvasSize
    ∧ m.image.pixels.length = m.image.width.toNat * m.image.height.toNat
    ∧ GrayExpanded m.image := by
  unfold GenerateSpoilerMess at h
  split_ifs at h with hc
  dsimp only at h
  obtain ⟨h1, h2, h3, h4, h5, rfl⟩ := make_elim _ _ _ _ _ h
  have hpix := atlasPixels_pixState d r
  refine ⟨h1, h2, h3, h4, h5, ?_, ?_⟩
  · show (expandToArgb _).pixels.length = _
    simp only [expandToArgb, List.length_map]
    exact hpix.1
  · intro p hp
    simp only [expandToArgb, List.mem_map] at hp
    obtain ⟨b, hb, rfl⟩ := hp
    have hble := hpix.2 b hb
    omega

theorem xxh32_lt (bytes : Bytes) : xxh32 bytes < 4294967296 := by
  unfold xxh32
  refine foldl_preserve (fun h => h < 4294967296) _ ?_ bytes 374761393 (by norm_num)
  intro b a _
  exact Nat.mod_lt _ (by norm_num)

theorem u32From_encode (n : Nat) (hn : n < 4294967296) (rest : Bytes) :
    u32From (u32encode n ++ rest) = n := by
  show n % 256 + 256 * (n / 256 % 256) + 65536 * (n / 65536 % 256)
      + 16777216 * (n / 16777216 % 256) = n
  omega

theorem i32From_encode (v : Int) (h0 : 0 ≤ v) (h1 : v < 2147483648) (rest : Bytes) :
    i32From (i32encode v ++ rest) = v := by
  unfold i32From i32encode
  rw [u32From_encode _ (by omega)]
  unfold toInt32
  rw [if_pos (by omega)]
  omega

theorem writeHeader_length (h : Header) : (writeHeader h).length = 24 := rfl

theorem readHeader_writeHeader (v dl dh : Nat) (fc cs fd : Int) (payload : Bytes)
    (hv : v < 4294967296) (hdl : dl < 4294967296) (hdh : dh < 4294967296)
    (hfc0 : 0 ≤ fc) (hfc1 : fc < 2147483648)
    (hcs0 : 0 ≤ cs) (hcs1 : cs < 2147483648)
    (hfd0 : 0 ≤ fd) (hfd1 : fd < 2147483648) :
    readHeader (writeHeader (Header.mk v dl dh fc cs fd) ++ payload)
      = Header.mk v dl dh fc cs fd := by
  have e0 : writeHeader (Header.mk v dl dh fc cs fd) ++ payload
      = u32encode v ++ (u32encode dl ++ (u32encode dh ++ (i32encode fc
          ++ (i32encode cs ++ (i32encode fd ++ payload))))) := rfl
  have d4 : (writeHeader (Header.mk v dl dh fc cs fd) ++ payload).drop 4
      = u32encode dl ++ (u32encode dh ++ (i32encode fc
          ++ (i32encode cs ++ (i32encode fd ++ payload)))) := rfl
  have d8 : (writeHeader (Header.mk v dl dh fc cs fd) ++ payload).drop 8
      = u32encode dh ++ (i32encode fc ++ (i32encode cs ++ (i32encode fd ++ payload))) := rfl
  have d12 : (writeHeader (Header.mk v dl dh fc cs fd) ++ payload).drop 12
      = i32encode fc ++ (i32encode cs ++ (i32encode fd ++ payload)) := rfl
  have d16 : (writeHeader (Header.mk v dl dh fc cs fd) ++ payload).drop 16
      = i32encode cs ++ (i32encode fd ++ payload) := rfl
  have d20 : (writeHeader (Header.mk v dl dh fc cs fd) ++ payload).drop 20
      = i32encode fd ++ payload := rfl
  unfold readHeader
  simp only [Header.mk.injEq]
  refine ⟨?_, ?_, ?_, ?_, ?_, ?_⟩
  · rw [e0]
    exact u32From_encode v hv _
  · rw [d4]
    exact u32From_encode dl hdl _
  · rw [d8]
    exact u32From_encode dh hdh _
  · rw [d12]
    exact i32From_encode fc hfc0 hfc1 _
  · rw [d16]
    exact i32From_encode cs hcs0 hcs1 _
  · rw [d20]
    exact i32From_encode fd hfd0 hfd1 _

/-- Claim C1: serializing an atlas produced by GenerateSpoilerMess and
decoding the bytes under a validator equal to its parameters succeeds and
returns an asset with identical frame count, canvas size, frame duration
and a pixel-identical image (the full cached value round-trips). The
int32 bounds mirror the C++ field types, and the payload bound mirrors
the int byte-array size. -/
theorem serialize_roundtrip (d : SpoilerMessDescriptor) (r : Nat → Nat)
    (m : SpoilerMessCached)
    (hm : GenerateSpoilerMess d r = some m)
    (hfc : m.framesCount < 2147483648)
    (hcs : m.canvasSize < 2147483648)
    (hfd : m.frameDuration < 2147483647)
    (hpl : (pngEncode (toGray m.image)).length < 4294967296) :
    ∃ bytes, m.serialize = some bytes
      ∧ SpoilerMessCached.FromSerialized bytes
          (some (Validator.mk m.frameDuration m.framesCount m.canvasSize)) = some m := by
  obtain ⟨h1, h2, h3, h4, h5, h6, h7⟩ := generate_spec d r m hm
  set P := pngEncode (toGray m.image) with hP
  have hP3 : P.length = (toGray m.image).pixels.length + 3 := by
    rw [hP]; simp [pngEncode]
  have hdl : P.length % 4294967296 = P.length := Nat.mod_eq_of_lt hpl
  have hser : m.serialize = some (writeHeader (Header.mk kVersion (P.length % 4294967296)
      (xxh32 P) m.framesCount m.canvasSize m.frameDuration) ++ P) := by
    unfold SpoilerMessCached.serialize
    rw [if_pos hfd]
  have hwpos : 0 ≤ m.image.width := by
    rw [h4]
    exact le_of_lt (mul_pos (lt_min h2 (by norm_num [kFramesPerRow])) h3)
  have hhpos : 0 ≤ m.image.height := by
    rw [h5]
    exact mul_nonneg (Int.ediv_nonneg (by simp only [kFramesPerRow]; omega)
      (by norm_num [kFramesPerRow])) (le_of_lt h3)
  have hrh : readHeader (writeHeader (Header.mk kVersion (P.length % 4294967296)
        (xxh32 P) m.framesCount m.canvasSize m.frameDuration) ++ P)
      = Header.mk kVersion (P.length % 4294967296) (xxh32 P)
        m.framesCount m.canvasSize m.frameDuration :=
    readHeader_writeHeader _ _ _ _ _ _ P (by norm_num [kVersion])
      (Nat.mod_lt _ (by norm_num)) (xxh32_lt P)
      (le_of_lt h2) hfc (le_of_lt h3) hcs (le_of_lt h1) (by omega)
  have hlen : (writeHeader (Header.mk kVersion (P.length % 4294967296)
      (xxh32 P) m.framesCount m.canvasSize m.frameDuration) ++ P).length = 24 + P.length := by
    rw [List.length_append, writeHeader_length]
  have hdrop : (writeHeader (Header.mk kVersion (P.length % 4294967296)
      (xxh32 P) m.framesCount m.canvasSize m.frameDuration) ++ P).drop 24 = P := rfl
  have hdec : pngDecode P = some (grayscale8Format,
      GrayImage.mk (Int.ofNat m.image.width.toNat) (Int.ofNat m.image.height.toNat)
        (toGray m.image).pixels) := by
    rw [hP]
    show pngDecode ((toGray m.image).width.toNat :: (toGray m.image).height.toNat
      :: grayscale8Format :: (toGray m.image).pixels) = _
    simp only [pngDecode]
    rw [if_pos]
    · rfl
    · show (toGray m.image).pixels.length = _
      simp only [toGray, List.length_map]
      exact h6
  have hgw : (Int.ofNat m.image.width.toNat) = m.image.width := Int.toNat_of_nonneg hwpos
  have hgh : (Int.ofNat m.image.height.toNat) = m.image.height := Int.toNat_of_nonneg hhpos
  have himg : expandToArgb (GrayImage.mk (Int.ofNat m.image.width.toNat)
      (Int.ofNat m.image.height.toNat) (toGray m.image).pixels) = m.image := by
    unfold expandToArgb toGray
    dsimp only
    conv_rhs => rw [show m.image = ArgbImage.mk m.image.width m.image.height m.image.pixels
      from rfl]
    rw [ArgbImage.mk.injEq]
    refine ⟨hgw, hgh, ?_⟩
    rw [List.map_map]
    have hcongr : ∀ p ∈ m.image.pixels,
        ((fun b => b * 16843009) ∘ (fun pix => pix % 256)) p = id p := by
      intro p hp
      exact h7 p hp
    rw [List.map_congr_left hcongr, List.map_id]
  refine ⟨_, hser, ?_⟩
  simp only [SpoilerMessCached.FromSerialized]
  rw [hlen, hrh]
  dsimp only
  rw [hdrop, hdl, List.take_length]
  rw [if_neg (by omega)]
  rw [if_neg (by
    push_neg
    refine ⟨rfl, h3, h2, h1, ?_, rfl, rfl⟩
    simp [validatorMismatch])]
  split
  · rename_i hnone
    rw [hdec] at hnone
    exact absurd hnone (by simp)
  · rename_i format gray heq
    rw [hdec] at heq
    injection heq with heq2
    injection heq2 with e1 e2
    subst e1
    subst e2
    rw [if_neg (by simp)]
    rw [if_neg (by
      push_neg
      constructor
      · show Int.ofNat m.image.width.toNat = _
        rw [hgw]
        exact h4
      · show Int.ofNat m.image.height.toNat = _
        rw [hgh]
        exact h5)]
    rw [himg, make_some m.image m.framesCount m.frameDuration m.canvasSize h1 h2 h3 h4 h5]

theorem serialize_roundtrip_witness :
    ∃ bytes, zeroFadeAtlas.serialize = some bytes
      ∧ SpoilerMessCached.FromSerialized bytes
          (some (Validator.mk zeroFadeAtlas.frameDuration zeroFadeAtlas.framesCount
            zeroFadeAtlas.canvasSize)) = some zeroFadeAtlas :=
  serialize_roundtrip zeroFadeDescriptor constStream zeroFadeAtlas
    (by decide) (by decide) (by decide) (by decide) (by decide)
